import Mathlib

/-!
Shallow embedding of the VieoDownloader single-page application.

The TypeScript sources embedded here are:
  - src/src/types/index.ts                  (data model)
  - src/src/utils/videoAnalyzer.ts          (current mock analyzer)
  - src/src/App.tsx                         (UI handlers and state machine)
  - src/unnamed/part_003                    (earlier analyzer variants: the
    sequential backend chain and the mock-fallback variant)
  - src/unnamed/part_004                    (fallback/demo-mode analyzer)

Browser and JavaScript runtime behaviour is modelled explicitly:
  - the WHATWG URL parser is modelled by `parseUrl` on the fragment the code
    uses (scheme detection, authority/hostname extraction, pathname);
  - JavaScript truthiness of optional strings (undefined / null / empty
    string are falsy) is modelled by `jsTruthyS` and the `jsOrStr` default
    operator;
  - Math.random draws, float formatting (toFixed) and object URLs are
    supplied by explicit environment records.
-/

namespace VG

/-- AppState from src/src/types/index.ts: the six UI states. -/
inductive AppState where
  | idle
  | analyzing
  | ready
  | downloading
  | completed
  | error
deriving DecidableEq, Repr

/-- The media type field of a format, `video | audio` in types/index.ts. -/
inductive MediaType where
  | video
  | audio
deriving DecidableEq, Repr

/-- DownloadProgress from types/index.ts. -/
structure DownloadProgress where
  percentage : Nat
  speed : String
  eta : String
deriving DecidableEq, Repr

/-- VideoFormat from types/index.ts. Optional fields keep the TS optionality;
the optional boolean demoMode is modelled as a Bool that defaults to false,
matching how the code only ever tests its truthiness. -/
structure VideoFormat where
  quality : String
  resolution : String
  size : String
  format : String
  type : MediaType
  downloadUrl : Option String := none
  formatId : Option String := none
  demoMode : Bool := false
  originalUrl : Option String := none
deriving DecidableEq, Repr

/-- Model of the untyped apiData grab-bag: the fields that the application
logic actually reads or that the claims reference. -/
structure ApiData where
  mock : Bool := false
  demoMode : Bool := false
  source : Option String := none
  originalUrl : Option String := none
  backendError : Option String := none
  generatedAt : Option String := none
deriving DecidableEq, Repr

/-- VideoInfo from types/index.ts. -/
structure VideoInfo where
  title : String
  thumbnail : String
  duration : String
  platform : String
  formats : List VideoFormat
  apiData : ApiData := {}
deriving DecidableEq, Repr

/-! ### JavaScript string helpers -/

/-- JS truthiness of a possibly-missing string: undefined, null and the empty
string are falsy. -/
def jsTruthyS : Option String → Bool
  | some s => s != ""
  | none => false

/-- The JS default operator `a || d` on a possibly-missing string. -/
def jsOrStr : Option String → String → String
  | some s, d => if s == "" then d else s
  | none, d => d

/-- String lowercasing, `s.toLowerCase()` on the ASCII fragment used. -/
def strToLower (s : String) : String := String.mk (s.data.map Char.toLower)

/-- String uppercasing, `s.toUpperCase()` on the ASCII fragment used. -/
def strToUpper (s : String) : String := String.mk (s.data.map Char.toUpper)

/-- Does the character list l begin with the character list p. -/
def listStarts : List Char → List Char → Bool
  | _, [] => true
  | [], _ :: _ => false
  | a :: as, b :: bs => a == b && listStarts as bs

/-- Does the character list l contain p as a contiguous run,
modelling `String.prototype.includes`. -/
def listHas : List Char → List Char → Bool
  | [], p => p.isEmpty
  | l@(_ :: t), p => listStarts l p || listHas t p

/-- `s.includes(sub)` on strings. -/
def strHas (s sub : String) : Bool := listHas s.data sub.data

/-- The digits of a decimal literal folded to a Nat. -/
def digitsToNat (l : List Char) : Nat :=
  l.foldl (fun a c => a * 10 + (c.toNat - '0'.toNat)) 0

/-- Model of JS parseInt on base-10 input: skip leading whitespace, optional
sign, then a maximal run of digits; NaN (no digits) is none. The hexadecimal
special case of parseInt is not exercised by the code. -/
def jsParseInt (s : String) : Option Int :=
  let cs := s.data.dropWhile Char.isWhitespace
  let signAndRest : Int × List Char :=
    match cs with
    | '-' :: r => (-1, r)
    | '+' :: r => (1, r)
    | r => (1, r)
  let digits := signAndRest.2.takeWhile Char.isDigit
  if digits.isEmpty then none
  else some (signAndRest.1 * (digitsToNat digits : Int))

/-- `n.toString().padStart(2, "0")`. -/
def jsPadStart2 (s : String) : String :=
  if 2 ≤ s.length then s
  else if s.length == 1 then "0" ++ s
  else "00"

/-! ### Model of the WHATWG URL parser (`new URL(url)`)

Only the behaviour the code observes is modelled: whether the constructor
throws, the hostname (lowercased) and the pathname. Tabs and newlines are
stripped and the input trimmed, the scheme must start with an ASCII letter
and be followed by a colon, special schemes parse an authority whose host
must be non-empty and free of forbidden characters, and non-special schemes
yield an empty hostname (opaque path). -/

structure UrlParts where
  hostname : String
  pathname : String
deriving DecidableEq, Repr

def schemeTailChar (c : Char) : Bool :=
  c.isAlphanum || c == '+' || c == '-' || c == '.'

def specialSchemes : List String := ["http", "https", "ws", "wss", "ftp", "file"]

def hostForbidden (c : Char) : Bool :=
  c == ' ' || c == '<' || c == '>' || c == '@' || c == '[' || c == ']' ||
  c == '^' || c == '|' || c == '\"' || c == '%'

/-- Strip the userinfo part of an authority: everything up to the last @. -/
def dropUserinfo (l : List Char) : List Char :=
  if l.contains '@' then (l.reverse.takeWhile (fun c => c != '@')).reverse else l

/-- Leading and trailing whitespace removal on the character list. -/
def trimChars (l : List Char) : List Char :=
  ((l.dropWhile Char.isWhitespace).reverse.dropWhile Char.isWhitespace).reverse

def parseUrl (url : String) : Option UrlParts :=
  let cs := (trimChars url.data).filter (fun c => !(c == '\t' || c == '\n' || c == '\r'))
  match cs with
  | [] => none
  | c0 :: _ =>
    if !c0.isAlpha then none
    else
      let scheme := cs.takeWhile schemeTailChar
      let rest := cs.drop scheme.length
      match rest with
      | ':' :: rest2 =>
        let schemeL := String.mk (scheme.map Char.toLower)
        if specialSchemes.contains schemeL then
          let afterSlashes := rest2.dropWhile (fun c => c == '/' || c == '\\')
          let authority := afterSlashes.takeWhile
            (fun c => !(c == '/' || c == '\\' || c == '?' || c == '#'))
          let host := (dropUserinfo authority).takeWhile (fun c => c != ':')
          if host.isEmpty && schemeL != "file" then none
          else if host.any hostForbidden then none
          else
            let afterAuth := afterSlashes.drop authority.length
            let path := afterAuth.takeWhile (fun c => !(c == '?' || c == '#'))
            some { hostname := String.mk (host.map Char.toLower),
                   pathname := if path.isEmpty then "/" else String.mk path }
        else
          let path := rest2.takeWhile (fun c => !(c == '?' || c == '#'))
          some { hostname := "", pathname := String.mk path }
      | _ => none

/-! ### Validation helpers shared verbatim by every analyzer variant -/

/-- isValidUrl: `new URL(url)` inside try/catch. -/
def isValidUrl (url : String) : Bool := (parseUrl url).isSome

/-- The eleven supported domain substrings. -/
def supportedDomains : List String :=
  ["youtube.com", "youtu.be", "instagram.com", "tiktok.com",
   "twitter.com", "x.com", "facebook.com", "fb.watch",
   "vimeo.com", "dailymotion.com", "twitch.tv"]

/-- isSupportedPlatform: the lowercased hostname must contain one of the
supported domain strings; a URL parse failure yields false. -/
def isSupportedPlatform (url : String) : Bool :=
  match parseUrl url with
  | none => false
  | some parts =>
    let domain := strToLower parts.hostname
    supportedDomains.any (fun d => strHas domain d)

/-- The branch chain of getPlatformName on an already extracted hostname. -/
def platformNameOfDomain (domain : String) : String :=
  if strHas domain "youtube" || strHas domain "youtu.be" then "YouTube"
  else if strHas domain "facebook" || strHas domain "fb.watch" then "Facebook"
  else if strHas domain "instagram" then "Instagram"
  else if strHas domain "tiktok" then "TikTok"
  else if strHas domain "twitter" || strHas domain "x.com" then "Twitter/X"
  else if strHas domain "vimeo" then "Vimeo"
  else if strHas domain "dailymotion" then "Dailymotion"
  else if strHas domain "twitch" then "Twitch"
  else "Unknown Platform"

/-- getPlatformName: hostname branch chain, with parse failures caught. -/
def getPlatformName (url : String) : String :=
  match parseUrl url with
  | none => "Unknown Platform"
  | some parts => platformNameOfDomain (strToLower parts.hostname)

/-! ### formatDuration -/

/-- A JS value that is either a number or a string, the input type
`seconds: number | string` of formatDuration. NaN inputs are not modelled. -/
inductive DurVal where
  | num (n : Int)
  | str (s : String)
deriving DecidableEq, Repr

/-- JS falsiness of the formatDuration input: the number 0 and the empty
string are falsy. -/
def jsFalsyDur : DurVal → Bool
  | .num n => n == 0
  | .str s => s == ""

/-- The numeric body of formatDuration. Math.floor on the quotient is
Int.fdiv, the JS remainder operator is Int.tmod. -/
def formatDurationInt (duration : Int) : String :=
  let hours := Int.fdiv duration 3600
  let minutes := Int.fdiv (Int.tmod duration 3600) 60
  let secs := Int.tmod duration 60
  if 0 < hours then
    toString hours ++ ":" ++ jsPadStart2 (toString minutes) ++ ":" ++
      jsPadStart2 (toString secs)
  else
    toString minutes ++ ":" ++ jsPadStart2 (toString secs)

/-- formatDuration, identical in every analyzer variant: falsy input and
parse failures give Unknown, numbers are formatted by formatDurationInt. -/
def formatDuration (v : DurVal) : String :=
  if jsFalsyDur v then "Unknown"
  else
    match (match v with | .num n => some n | .str s => jsParseInt s) with
    | none => "Unknown"
    | some duration => formatDurationInt duration

/-- formatDuration applied to a possibly-undefined field (undefined is
falsy, so it yields Unknown). -/
def formatDurationOpt : Option DurVal → String
  | none => "Unknown"
  | some v => formatDuration v

/-! ### formatFileSize

The JS body uses floating point (Math.log, Math.pow, Math.round); it is
modelled in integer arithmetic: the exponent is the integer logarithm and
the rounded two-decimal value is computed over hundredths. No claim depends
on this function; it only feeds opaque size strings. -/

/-- Render a number of hundredths the way JS prints Math.round(x*100)/100. -/
def decStr2 (h : Nat) : String :=
  let d := h % 100
  if d == 0 then toString (h / 100)
  else if d % 10 == 0 then toString (h / 100) ++ "." ++ toString (d / 10)
  else toString (h / 100) ++ "." ++
    (if d < 10 then "0" ++ toString d else toString d)

def formatFileSize (bytes : Nat) : String :=
  if bytes == 0 then "Unknown"
  else
    let sizes := ["Bytes", "KB", "MB", "GB"]
    let i := Nat.log 1024 bytes
    let p := 1024 ^ i
    decStr2 ((bytes * 100 + p / 2) / p) ++ " " ++ sizes.getD i "undefined"

/-! ### YouTube URL helpers -/

/-- The suffix of l after the first occurrence of p, if any. -/
def afterFirst : List Char → List Char → Option (List Char)
  | l@(_ :: t), p => if listStarts l p then some (l.drop p.length) else afterFirst t p
  | [], p => if p.isEmpty then some [] else none

/-- Fuel-indexed search for the suffix after the last occurrence of p. The
fuel only bounds the recursion depth; since every step strictly shortens the
list (afterFirst_length_lt), fuel equal to the list length plus one is never
exhausted. Structural recursion keeps the definition kernel-computable. -/
def afterLastFuel : Nat → List Char → List Char → Option (List Char)
  | 0, _, _ => none
  | fuel + 1, l, p =>
    match afterFirst l p with
    | none => none
    | some r => some ((afterLastFuel fuel r p).getD r)

/-- The suffix of l after the last occurrence of p: repeatedly take the
suffix after the first occurrence. Models a greedy `.*` before the
capturing group. -/
def afterLast (l p : List Char) : Option (List Char) :=
  if p.isEmpty then some []
  else afterLastFuel (l.length + 1) l p

/-- The characters of a capturing group `([^&\n?#]+)`. -/
def takeIdChars (l : List Char) : List Char :=
  l.takeWhile (fun c => !(c == '&' || c == '\n' || c == '?' || c == '#'))

def matchAfter (l pat : List Char) : Option String :=
  (afterFirst l pat).bind (fun r =>
    let v := takeIdChars r
    if v.isEmpty then none else some (String.mk v))

/-- extractYouTubeVideoId: the two regex patterns of the source, modelled as
substring searches followed by the capturing group. -/
def extractYouTubeVideoId (url : String) : Option String :=
  let cs := url.data
  match matchAfter cs "youtube.com/watch?v=".data with
  | some v => some v
  | none =>
    match matchAfter cs "youtu.be/".data with
    | some v => some v
    | none =>
      match matchAfter cs "youtube.com/embed/".data with
      | some v => some v
      | none =>
        (afterFirst cs "youtube.com/watch?".data).bind (fun r =>
          (afterLast r "v=".data).bind (fun r2 =>
            let v := takeIdChars r2
            if v.isEmpty then none else some (String.mk v)))

def getDefaultThumbnail : String :=
  "https://images.pexels.com/photos/1144275/pexels-photo-1144275.jpeg?auto=compress&cs=tinysrgb&w=480&h=270&dpr=1"

def getYouTubeThumbnail (url : String) : String :=
  match extractYouTubeVideoId url with
  | some vid => "https://img.youtube.com/vi/" ++ vid ++ "/maxresdefault.jpg"
  | none => getDefaultThumbnail

/-- extractTitleFromUrl as in part_003 and part_004. -/
def extractTitleFromUrl (url : String) : String :=
  match parseUrl url with
  | none => "Video"
  | some parts =>
    if strHas parts.hostname "youtube" then "YouTube Video"
    else if strHas parts.hostname "instagram" then "Instagram Video"
    else if strHas parts.hostname "tiktok" then "TikTok Video"
    else "Video"

/-- getFormatFromUrl as in part_003 and part_004. -/
def getFormatFromUrl (url : String) : Option String :=
  match parseUrl url with
  | none => none
  | some parts =>
    let p := strToLower parts.pathname
    if strHas p ".mp4" then some "MP4"
    else if strHas p ".mp3" then some "MP3"
    else if strHas p ".webm" then some "WEBM"
    else if strHas p ".m4a" then some "M4A"
    else none

/-- generateDemoFormats, identical in part_003 and part_004: four demo
formats without download URLs. The videoId argument is accepted but not
used by the body, exactly as in the source. -/
def generateDemoFormats (_videoId : String) (originalUrl : String) :
    List VideoFormat :=
  [{ quality := "1080p", resolution := "1920x1080", size := "Unknown",
     format := "MP4", type := .video, downloadUrl := none,
     formatId := some "demo-1080p", demoMode := true,
     originalUrl := some originalUrl },
   { quality := "720p", resolution := "1280x720", size := "Unknown",
     format := "MP4", type := .video, downloadUrl := none,
     formatId := some "demo-720p", demoMode := true,
     originalUrl := some originalUrl },
   { quality := "480p", resolution := "854x480", size := "Unknown",
     format := "MP4", type := .video, downloadUrl := none,
     formatId := some "demo-480p", demoMode := true,
     originalUrl := some originalUrl },
   { quality := "128kbps", resolution := "Audio Only", size := "Unknown",
     format := "MP3", type := .audio, downloadUrl := none,
     formatId := some "demo-audio", demoMode := true,
     originalUrl := some originalUrl }]

end VG

namespace VG.Mock

/-! Embedding of src/src/utils/videoAnalyzer.ts, the current analyzer: a
pure mock that performs no HTTP request at all. Math.random draws, the
toFixed size strings and new Date().toISOString() are supplied by the
environment record. -/

open VG

structure MockEnv where
  titleIdx : Nat := 0
  durDraw : Nat := 0
  sizeStr : Nat → String := fun _ => "100.0"
  thumbIdx : Nat := 0
  nowISO : String := ""

def videoTitles : List String :=
  ["Amazing Nature Documentary - Wildlife in 4K",
   "How to Build a Modern Web Application",
   "Top 10 Travel Destinations 2024",
   "Cooking Masterclass: Italian Cuisine",
   "Tech Review: Latest Smartphone Features",
   "Fitness Workout: 30-Minute Full Body",
   "Music Video: Indie Rock Compilation",
   "Tutorial: Advanced Photography Tips"]

def generateMockDownloadUrl (quality format : String) : String :=
  "https://sample-videos.com/zip/10/mp4/" ++ "sample-" ++ quality ++ "." ++ format

def thumbnails : List String :=
  ["https://images.pexels.com/photos/1144275/pexels-photo-1144275.jpeg?auto=compress&cs=tinysrgb&w=480&h=270&dpr=1",
   "https://images.pexels.com/photos/1092644/pexels-photo-1092644.jpeg?auto=compress&cs=tinysrgb&w=480&h=270&dpr=1",
   "https://images.pexels.com/photos/1308624/pexels-photo-1308624.jpeg?auto=compress&cs=tinysrgb&w=480&h=270&dpr=1",
   "https://images.pexels.com/photos/1261728/pexels-photo-1261728.jpeg?auto=compress&cs=tinysrgb&w=480&h=270&dpr=1"]

def getMockThumbnail (env : MockEnv) : String :=
  thumbnails.getD (env.thumbIdx % thumbnails.length) ""

def generateMockVideoData (url platform : String) (env : MockEnv) : VideoInfo :=
  let randomTitle := videoTitles.getD (env.titleIdx % videoTitles.length) ""
  let duration := env.durDraw % 1800 + 120
  { title := randomTitle,
    thumbnail := getMockThumbnail env,
    duration := formatDuration (.num duration),
    platform := platform,
    formats :=
      [{ quality := "1080p", resolution := "1920x1080",
         size := env.sizeStr 0 ++ " MB", format := "MP4", type := .video,
         downloadUrl := some (generateMockDownloadUrl "1080p" "mp4"),
         formatId := some "1080p-mp4" },
       { quality := "720p", resolution := "1280x720",
         size := env.sizeStr 1 ++ " MB", format := "MP4", type := .video,
         downloadUrl := some (generateMockDownloadUrl "720p" "mp4"),
         formatId := some "720p-mp4" },
       { quality := "480p", resolution := "854x480",
         size := env.sizeStr 2 ++ " MB", format := "MP4", type := .video,
         downloadUrl := some (generateMockDownloadUrl "480p" "mp4"),
         formatId := some "480p-mp4" },
       { quality := "High", resolution := "Audio Only",
         size := env.sizeStr 3 ++ " MB", format := "MP3", type := .audio,
         downloadUrl := some (generateMockDownloadUrl "high" "mp3"),
         formatId := some "audio-mp3" }],
    apiData := { mock := true, originalUrl := some url,
                 generatedAt := some env.nowISO } }

/-- analyzeVideo of videoAnalyzer.ts: validate the URL, validate the
platform, then return randomly generated mock data. No fetch occurs. -/
def analyzeVideo (url : String) (env : MockEnv) : Except String VideoInfo :=
  if !isValidUrl url then Except.error "Invalid URL format"
  else if !isSupportedPlatform url then
    Except.error "Platform not supported. We support YouTube, Instagram, TikTok, Twitter, and more."
  else Except.ok (generateMockVideoData url (getPlatformName url) env)

end VG.Mock

namespace VG.ChainA

/-! Embedding of the first analyzeVideo variant of src/unnamed/part_003
(lines 3 to 97 with its transformBackendResponse, lines 218 to 285): the
sequential best-effort chain over the configured backend endpoints. -/

open VG

inductive BackendType where
  | cobalt
  | standard
deriving DecidableEq, Repr

structure Endpoint where
  url : String
  type : BackendType
deriving DecidableEq, Repr

/-- The configured backend list, in source order. -/
def backendEndpoints : List Endpoint :=
  [{ url := "https://api.cobalt.tools/api/json", type := .cobalt },
   { url := "https://vieodownloader-production.up.railway.app/download",
     type := .standard }]

/-- One entry of a backend formats array, with the fields the transformer
reads. Absent JSON fields are none. -/
structure RawFormat where
  url : Option String := none
  quality : Option String := none
  height : Option Int := none
  width : Option Int := none
  resolution : Option String := none
  filesize : Option Nat := none
  ext : Option String := none
  vcodec : Option String := none
  format_id : Option String := none
deriving DecidableEq, Repr

/-- A parsed backend JSON body, with the fields the code reads. -/
structure BackendData where
  status : Option String := none
  text : Option String := none
  url : Option String := none
  filename : Option String := none
  thumbnail : Option String := none
  title : Option String := none
  duration : Option DurVal := none
  formats : Option (List RawFormat) := none
deriving DecidableEq, Repr

/-- Outcome of one fetch: a network failure (fetch or json throws), or an
HTTP response with its ok flag and parsed body (none when response.json
throws). -/
inductive FetchOutcome where
  | netFail
  | httpResp (ok : Bool) (body : Option BackendData)
deriving DecidableEq, Repr

/-- The validity check `data && (data.url || data.formats || data.title)`;
a present formats array is truthy even when empty. -/
def dataValid (d : BackendData) : Bool :=
  jsTruthyS d.url || d.formats.isSome || jsTruthyS d.title

def getFormatFromUrlOpt : Option String → Option String
  | some u => getFormatFromUrl u
  | none => none

/-- One pushed entry of the standard-backend formats loop. -/
def stdFormat (f : RawFormat) (idx : Nat) : VideoFormat :=
  { quality := jsOrStr f.quality
      (match f.height with
       | some h => if h != 0 then toString h ++ "p" else "Unknown"
       | none => "Unknown"),
    resolution := jsOrStr f.resolution
      (match f.width, f.height with
       | some w, some h =>
         if w != 0 && h != 0 then toString w ++ "x" ++ toString h
         else "Unknown"
       | _, _ => "Unknown"),
    size := match f.filesize with
      | some b => if b != 0 then formatFileSize b else "Unknown"
      | none => "Unknown",
    format := jsOrStr (f.ext.map strToUpper) "MP4",
    type := if (match f.vcodec with
                | some v => v != "" && v != "none"
                | none => false) then .video else .audio,
    downloadUrl := f.url,
    formatId := some (jsOrStr f.format_id ("format-" ++ toString idx)) }

/-- transformBackendResponse (part_003 lines 218 to 285). A cobalt error
status throws, which the per-backend catch turns into trying the next
endpoint. -/
def transformBackendResponse (d : BackendData) (originalUrl : String)
    (btype : BackendType) : Except String VideoInfo :=
  match btype with
  | .cobalt =>
    if d.status == some "success" || d.status == some "redirect" then
      Except.ok
        { title := jsOrStr d.filename (extractTitleFromUrl originalUrl),
          thumbnail := jsOrStr d.thumbnail getDefaultThumbnail,
          duration := "Unknown",
          platform := getPlatformName originalUrl,
          formats :=
            [{ quality := "Best Available", resolution := "Original",
               size := "Unknown",
               format := jsOrStr (getFormatFromUrlOpt d.url) "MP4",
               type := .video, downloadUrl := d.url,
               formatId := some "cobalt-video" }],
          apiData := { source := some "cobalt" } }
    else if d.status == some "error" then
      Except.error (jsOrStr d.text "Video processing failed")
    else
      Except.ok
        { title := jsOrStr d.filename (extractTitleFromUrl originalUrl),
          thumbnail := jsOrStr d.thumbnail getDefaultThumbnail,
          duration := "Unknown",
          platform := getPlatformName originalUrl,
          formats := [],
          apiData := { source := some "cobalt" } }
  | .standard =>
    let pushed := (d.formats.getD []).foldl
      (fun acc f => if jsTruthyS f.url then acc ++ [stdFormat f acc.length]
                    else acc) []
    if pushed.isEmpty then
      Except.ok
        { title := jsOrStr d.title (extractTitleFromUrl originalUrl),
          thumbnail := jsOrStr d.thumbnail getDefaultThumbnail,
          duration := formatDurationOpt d.duration,
          platform := getPlatformName originalUrl,
          formats := generateDemoFormats
            (jsOrStr (extractYouTubeVideoId originalUrl) "unknown")
            originalUrl,
          apiData := { demoMode := true } }
    else
      Except.ok
        { title := jsOrStr d.title (extractTitleFromUrl originalUrl),
          thumbnail := jsOrStr d.thumbnail getDefaultThumbnail,
          duration := formatDurationOpt d.duration,
          platform := getPlatformName originalUrl,
          formats := pushed,
          apiData := {} }

/-- One backend attempt of the loop body: the transformed response if the
fetch succeeded, the response was ok, the body parsed, the data validity
check passed and the transformer did not throw; none otherwise (the
per-backend try/catch then moves on to the next endpoint). -/
def attempt (url : String) (env : Nat → FetchOutcome) (i : Nat)
    (e : Endpoint) : Option VideoInfo :=
  match env i with
  | .netFail => none
  | .httpResp ok body =>
    if ok then
      match body with
      | none => none
      | some d =>
        if dataValid d then (transformBackendResponse d url e.type).toOption
        else none
    else none

/-- The for-loop over the backend endpoints, started at absolute index i:
returns the list of contacted endpoint indices in contact order, and the
result of the first successful attempt if any. -/
def runFrom (url : String) (env : Nat → FetchOutcome) (i : Nat) :
    List Endpoint → List Nat × Option VideoInfo
  | [] => ([], none)
  | e :: rest =>
    match attempt url env i e with
    | some v => ([i], some v)
    | none =>
      let r := runFrom url env (i + 1) rest
      (i :: r.1, r.2)

/-- The attempt made for the endpoint at position j of eps when the loop
started at absolute index i. -/
def attemptAtFrom (url : String) (env : Nat → FetchOutcome) (i : Nat)
    (eps : List Endpoint) (j : Nat) : Option VideoInfo :=
  match eps[j]? with
  | some e => attempt url env (i + j) e
  | none => none

structure OembedData where
  title : Option String := none
  thumbnail_url : Option String := none
deriving DecidableEq, Repr

inductive OembedOutcome where
  | fail
  | ok (data : OembedData)
deriving DecidableEq, Repr

structure ChainEnv where
  fetch : Nat → FetchOutcome
  oembed : OembedOutcome := .fail

/-- extractYouTubeInfo of the chain variant: oEmbed data when that call
succeeds, otherwise basic info; demo formats in both cases. -/
def extractYouTubeInfo (url : String) (env : ChainEnv) :
    Except String VideoInfo :=
  match extractYouTubeVideoId url with
  | none => Except.error "Failed to extract YouTube video information"
  | some videoId =>
    match env.oembed with
    | .ok od =>
      Except.ok
        { title := jsOrStr od.title "YouTube Video",
          thumbnail := jsOrStr od.thumbnail_url
            ("https://img.youtube.com/vi/" ++ videoId ++ "/maxresdefault.jpg"),
          duration := "Unknown", platform := "YouTube",
          formats := generateDemoFormats videoId url,
          apiData := { source := some "demo-mode", originalUrl := some url,
                       demoMode := true } }
    | .fail =>
      Except.ok
        { title := "YouTube Video",
          thumbnail :=
            "https://img.youtube.com/vi/" ++ videoId ++ "/maxresdefault.jpg",
          duration := "Unknown", platform := "YouTube",
          formats := generateDemoFormats videoId url,
          apiData := { source := some "demo-mode", originalUrl := some url,
                       demoMode := true } }

/-- analyzeVideo of the chain variant: validation, then the sequential
backend loop, then the YouTube demo fallback or a final error. -/
def analyzeVideo (url : String) (env : ChainEnv) : Except String VideoInfo :=
  if !isValidUrl url then Except.error "Invalid URL format"
  else if !isSupportedPlatform url then
    Except.error "Platform not supported. We support YouTube, Instagram, TikTok, Twitter, and more."
  else
    match (runFrom url env.fetch 0 backendEndpoints).2 with
    | some v => Except.ok v
    | none =>
      if strHas url "youtube.com" || strHas url "youtu.be" then
        extractYouTubeInfo url env
      else
        Except.error "Unable to connect to video download services. Please try again later."

end VG.ChainA

namespace VG.MockFB

/-! Embedding of the mock-fallback analyzeVideo variant of
src/unnamed/part_003 (lines 1276 to 1571): one Railway backend call, and on
any backend failure a fallback to randomly generated mock data
(simulateVideoAnalysis). -/

open VG

structure RawFormatD where
  url : Option String := none
  quality : Option String := none
  height : Option Int := none
  width : Option Int := none
  resolution : Option String := none
  filesize : Option Nat := none
  ext : Option String := none
  vcodec : Option String := none
  format_id : Option String := none
  abr : Option Int := none
deriving DecidableEq, Repr

structure BackendDataD where
  title : Option String := none
  thumbnail : Option String := none
  duration : Option DurVal := none
  formats : Option (List RawFormatD) := none
  audio_formats : Option (List RawFormatD) := none
deriving DecidableEq, Repr

inductive FetchOutcomeD where
  | netFail
  | httpResp (ok : Bool) (body : Option BackendDataD)
deriving DecidableEq, Repr

/-- Environment: the Railway fetch outcome, the Math.random draws of the
mock generators, the object URL produced for the generated blob, and the
current ISO timestamp. -/
structure SimEnv where
  railway : FetchOutcomeD := .netFail
  titleIdx : Nat := 0
  durIdx : Nat := 0
  blobUrl : String → String → String := fun _ _ => ""
  nowISO : String := ""

/-- JS stringification of a possibly-undefined number inside a template
literal or string concatenation. -/
def intOptToJsStr : Option Int → String
  | some n => toString n
  | none => "undefined"

/-- The second || step of a JS default chain on a plain string. -/
def jsOrS (s d : String) : String := if s == "" then d else s

/-- transformBackendResponse of this variant (lines 1460 to 1501): no
per-entry url guard, and separate audio_formats handling. -/
def transformBackendResponse (d : BackendDataD) (originalUrl : String) :
    VideoInfo :=
  let vfs := (d.formats.getD []).map (fun f =>
    { quality := jsOrS (jsOrStr f.quality (intOptToJsStr f.height ++ "p"))
        "Unknown",
      resolution := jsOrS (jsOrStr f.resolution
        (intOptToJsStr f.width ++ "x" ++ intOptToJsStr f.height)) "Unknown",
      size := match f.filesize with
        | some b => if b != 0 then formatFileSize b else "Unknown"
        | none => "Unknown",
      format := jsOrStr (f.ext.map strToUpper) "MP4",
      type := if (match f.vcodec with
                  | some v => v != "" && v != "none"
                  | none => false) then MediaType.video else MediaType.audio,
      downloadUrl := f.url,
      formatId := f.format_id })
  let afs := (d.audio_formats.getD []).map (fun f =>
    { quality := match f.abr with
        | some a => if a != 0 then toString a ++ "kbps" else "Audio"
        | none => "Audio",
      resolution := "Audio Only",
      size := match f.filesize with
        | some b => if b != 0 then formatFileSize b else "Unknown"
        | none => "Unknown",
      format := jsOrStr (f.ext.map strToUpper) "MP3",
      type := MediaType.audio,
      downloadUrl := f.url,
      formatId := f.format_id })
  { title := jsOrStr d.title "Unknown Title",
    thumbnail := jsOrStr d.thumbnail getDefaultThumbnail,
    duration := formatDurationOpt d.duration,
    platform := getPlatformName originalUrl,
    formats := vfs ++ afs,
    apiData := {} }

def titlesFor (platform : String) : List String :=
  if platform == "YouTube" then
    ["Amazing Tutorial: Learn Something New Today",
     "Top 10 Tips for Better Productivity",
     "Relaxing Music for Study and Work",
     "How to Build Amazing Projects",
     "The Ultimate Guide to Success"]
  else if platform == "Instagram" then
    ["Beautiful Sunset Timelapse", "Behind the Scenes Content",
     "Daily Life Moments", "Creative Art Process",
     "Travel Adventure Highlights"]
  else if platform == "TikTok" then
    ["Viral Dance Challenge", "Quick Life Hack", "Funny Pet Moments",
     "DIY Project Tutorial", "Trending Comedy Skit"]
  else if platform == "Twitter/X" then
    ["Breaking News Update", "Interesting Thread Discussion",
     "Live Event Coverage", "Quick Announcement", "Community Highlights"]
  else
    ["Amazing Tutorial: Learn Something New Today",
     "Top 10 Tips for Better Productivity",
     "Relaxing Music for Study and Work",
     "How to Build Amazing Projects",
     "The Ultimate Guide to Success"]

def generateMockTitle (platform : String) (idx : Nat) : String :=
  (titlesFor platform).getD (idx % (titlesFor platform).length) ""

def getMockThumbnail (platform : String) : String :=
  if platform == "YouTube" then
    "https://images.pexels.com/photos/1144275/pexels-photo-1144275.jpeg?auto=compress&cs=tinysrgb&w=480&h=270&dpr=1"
  else if platform == "Instagram" then
    "https://images.pexels.com/photos/1366919/pexels-photo-1366919.jpeg?auto=compress&cs=tinysrgb&w=480&h=270&dpr=1"
  else if platform == "TikTok" then
    "https://images.pexels.com/photos/1190297/pexels-photo-1190297.jpeg?auto=compress&cs=tinysrgb&w=480&h=270&dpr=1"
  else if platform == "Twitter/X" then
    "https://images.pexels.com/photos/267350/pexels-photo-267350.jpeg?auto=compress&cs=tinysrgb&w=480&h=270&dpr=1"
  else
    "https://images.pexels.com/photos/1144275/pexels-photo-1144275.jpeg?auto=compress&cs=tinysrgb&w=480&h=270&dpr=1"

def mockDurations : List String :=
  ["0:30", "1:45", "3:22", "5:17", "8:43", "12:05", "15:30"]

def generateMockDuration (idx : Nat) : String :=
  mockDurations.getD (idx % mockDurations.length) ""

/-- createMockDownloadUrl builds a Blob of generated text and returns
URL.createObjectURL of it; the resulting opaque object URL is supplied by
the environment. -/
def createMockDownloadUrl (env : SimEnv) (quality format : String) : String :=
  env.blobUrl quality format

def generateMockFormats (platform : String) (env : SimEnv) :
    List VideoFormat :=
  let baseFormats : List VideoFormat :=
    [{ quality := "1080p", resolution := "1920x1080", size := "45.2 MB",
       format := "MP4", type := .video,
       downloadUrl := some (createMockDownloadUrl env "1080p" "mp4"),
       formatId := some "mock-1080p" },
     { quality := "720p", resolution := "1280x720", size := "28.7 MB",
       format := "MP4", type := .video,
       downloadUrl := some (createMockDownloadUrl env "720p" "mp4"),
       formatId := some "mock-720p" },
     { quality := "480p", resolution := "854x480", size := "18.3 MB",
       format := "MP4", type := .video,
       downloadUrl := some (createMockDownloadUrl env "480p" "mp4"),
       formatId := some "mock-480p" },
     { quality := "128kbps", resolution := "Audio Only", size := "3.2 MB",
       format := "MP3", type := .audio,
       downloadUrl := some (createMockDownloadUrl env "audio" "mp3"),
       formatId := some "mock-audio" }]
  if platform == "TikTok" || platform == "Instagram" then
    baseFormats.map (fun f =>
      { f with resolution :=
          if f.type == MediaType.video then
            if f.quality == "1080p" then "1080x1920"
            else if f.quality == "720p" then "720x1280"
            else "480x854"
          else f.resolution })
  else baseFormats

/-- simulateVideoAnalysis: the mock fallback, marked mock in apiData. -/
def simulateVideoAnalysis (url : String) (env : SimEnv) : VideoInfo :=
  let platform := getPlatformName url
  { title := generateMockTitle platform env.titleIdx,
    thumbnail := getMockThumbnail platform,
    duration := generateMockDuration env.durIdx,
    platform := platform,
    formats := generateMockFormats platform env,
    apiData := { mock := true, originalUrl := some url,
                 generatedAt := some env.nowISO } }

/-- analyzeVideo of the mock-fallback variant: validation, then the Railway
call; a network failure, a non-ok response, or an unparseable body throws
inside the inner try and the catch falls back to the mock analysis. -/
def analyzeVideo (url : String) (env : SimEnv) : Except String VideoInfo :=
  if !isValidUrl url then Except.error "Invalid URL format"
  else if !isSupportedPlatform url then
    Except.error "Platform not supported. We support YouTube, Instagram, TikTok, Twitter, and more."
  else
    match env.railway with
    | .httpResp true (some d) => Except.ok (transformBackendResponse d url)
    | _ => Except.ok (simulateVideoAnalysis url env)

end VG.MockFB

namespace VG.App

/-! Embedding of the UI handlers of src/src/App.tsx. A HandlerRun records
the final component state of one handler invocation, the ordered list of
appState and downloadProgress writes it performs, and whether it triggered
a browser download (link.click()). The enabling predicates record from
which states the render function and the component disabled attributes
allow each handler to be invoked. -/

open VG

/-- The five useState variables of the App component. -/
structure AppFull where
  appState : AppState
  videoInfo : Option VideoInfo
  error : String
  downloadProgress : Option DownloadProgress
  currentUrl : String
deriving DecidableEq, Repr

/-- The five initial useState values. -/
def initialApp : AppFull :=
  { appState := .idle, videoInfo := none, error := "",
    downloadProgress := none, currentUrl := "" }

/-- One observable write performed by a handler: a setAppState call or a
setDownloadProgress call. -/
inductive AppEvent where
  | stateW (s : AppState)
  | progW (p : Option DownloadProgress)
deriving DecidableEq, Repr

structure HandlerRun where
  final : AppFull
  events : List AppEvent
  downloadTriggered : Bool
deriving Repr

/-- handleUrlSubmit: remember the url, enter analyzing, clear error and
video info, then await analyzeVideo, whose outcome is the result
argument. -/
def handleUrlSubmit (s : AppFull) (url : String)
    (result : Except String VideoInfo) : HandlerRun :=
  let s1 := { s with currentUrl := url, appState := .analyzing,
                     error := "", videoInfo := none }
  match result with
  | .ok info =>
    { final := { s1 with videoInfo := some info, appState := .ready },
      events := [.stateW .analyzing, .stateW .ready],
      downloadTriggered := false }
  | .error msg =>
    { final := { s1 with error := msg, appState := .error },
      events := [.stateW .analyzing, .stateW .error],
      downloadTriggered := false }

/-- Environment of a download run: the Math.random draws of the progress
loop (step, speed string, eta seconds) and whether the DOM link
creation/click sequence succeeds (a throw is modelled at the click step,
after the progress loop). -/
structure DLEnv where
  r : Nat → Nat := fun _ => 0
  speedStr : Nat → String := fun _ => "1.0"
  etaR : Nat → Nat := fun _ => 0
  domOk : Bool := true

/-- One updateProgress record: Math.floor((100 - p) / 10) minutes and a
random seconds count while below 90 percent. -/
def mkProgress (env : DLEnv) (n p : Nat) : DownloadProgress :=
  { percentage := p,
    speed := env.speedStr n ++ " MB/s",
    eta := if p < 90 then
             toString ((100 - p) / 10) ++ "m " ++
               toString (env.etaR n % 60) ++ "s"
           else "Almost done..." }

/-- Math.floor(Math.random() * 15 + 5), a step in 5..19. -/
def dlStep (env : DLEnv) (n : Nat) : Nat := env.r n % 15 + 5

/-- The progress writes of `for (let i = 0; i <= 100; i += step)`, fuel
indexed for structural recursion. Every step is at least 5, so the loop
runs at most 21 iterations from 0 and fuel 101 is never exhausted. -/
def dlLoopF (env : DLEnv) : Nat → Nat → Nat → List DownloadProgress
  | 0, _, _ => []
  | fuel + 1, n, i =>
    if i ≤ 100 then
      mkProgress env n (min i 100) :: dlLoopF env fuel (n + 1) (i + dlStep env n)
    else []

def dlLoopWrites (env : DLEnv) : List DownloadProgress := dlLoopF env 101 0 0

def initialProgress : DownloadProgress :=
  { percentage := 0, speed := "0 MB/s", eta := "Preparing..." }

def completeProgress : DownloadProgress :=
  { percentage := 100, speed := "0 MB/s", eta := "Complete!" }

/-- The demo-mode guard of handleDownload in App.tsx:
`!format.downloadUrl || format.downloadUrl === "#demo"` (a missing url and
the empty string are both falsy). The demoMode flag is not read here. -/
def demoCond (fmt : VideoFormat) : Bool :=
  !jsTruthyS fmt.downloadUrl || fmt.downloadUrl == some "#demo"

/-- handleDownload of App.tsx. -/
def handleDownload (s : AppFull) (fmt : VideoFormat) (env : DLEnv) :
    HandlerRun :=
  if demoCond fmt then
    { final := { s with
        error := "This is a demo. In a real implementation, the file would be downloaded from: "
          ++ jsOrStr fmt.downloadUrl "N/A",
        appState := .error },
      events := [.stateW .error],
      downloadTriggered := false }
  else
    let loopEvents := (dlLoopWrites env).map (fun p => AppEvent.progW (some p))
    if env.domOk then
      { final := { s with appState := .completed, downloadProgress := none },
        events := .stateW .downloading :: .progW (some initialProgress) ::
          loopEvents ++
          [.progW (some completeProgress), .stateW .completed, .progW none],
        downloadTriggered := true }
    else
      { final := { s with
          appState := .error,
          error := "Failed to download the file. Please try again.",
          downloadProgress := none },
        events := .stateW .downloading :: .progW (some initialProgress) ::
          loopEvents ++ [.stateW .error, .progW none],
        downloadTriggered := false }

/-- handleRetry: resubmit the remembered url, or fall back to idle. -/
def handleRetry (s : AppFull) (result : Except String VideoInfo) :
    HandlerRun :=
  if s.currentUrl != "" then handleUrlSubmit s s.currentUrl result
  else
    { final := { s with appState := .idle },
      events := [.stateW .idle],
      downloadTriggered := false }

/-- handleNewDownload: reset all five state variables. -/
def handleNewDownload (s : AppFull) : HandlerRun :=
  { final := { appState := .idle, videoInfo := none, error := "",
               downloadProgress := none, currentUrl := "" },
    events := [.stateW .idle, .progW none],
    downloadTriggered := false }

/-- UrlInput renders in idle and analyzing, but its submit button is
disabled while analyzing, so a submit fires only from idle. -/
def submitEnabled (s : AppFull) : Prop := s.appState = .idle

def formatsOf (s : AppFull) : List VideoFormat :=
  match s.videoInfo with
  | some v => v.formats
  | none => []

/-- FormatSelector renders when videoInfo is set and the state is ready or
downloading; its per-format button is disabled while downloading and when
the downloadUrl is falsy, so a download fires only from ready on a format
of the current video with a truthy downloadUrl. -/
def downloadEnabled (s : AppFull) (fmt : VideoFormat) : Prop :=
  s.appState = .ready ∧ fmt ∈ formatsOf s ∧ jsTruthyS fmt.downloadUrl = true

/-- ErrorDisplay renders only in the error state. -/
def retryEnabled (s : AppFull) : Prop := s.appState = .error

/-- CompletedDownload renders only in the completed state. -/
def newDownloadEnabled (s : AppFull) : Prop := s.appState = .completed

def stateWrites (run : HandlerRun) : List AppState :=
  run.events.filterMap (fun e =>
    match e with
    | .stateW a => some a
    | _ => none)

def progressPercents (run : HandlerRun) : List Nat :=
  run.events.filterMap (fun e =>
    match e with
    | .progW (some p) => some p.percentage
    | _ => none)

/-- The consecutive appState transitions of one handler run started in
state s: adjacent pairs of the written-state sequence prefixed with s. -/
def stepsOf (s : AppFull) (tr : List AppState) : List (AppState × AppState) :=
  (s.appState :: tr).zip tr

/-- The appState step relation of the application: some handler, invocable
in some component state, performs the transition a to b at some point of
its run. -/
def appStep (a b : AppState) : Prop :=
  ∃ s : AppFull,
    (submitEnabled s ∧
      ∃ url res, (a, b) ∈ stepsOf s (stateWrites (handleUrlSubmit s url res))) ∨
    (∃ fmt env, downloadEnabled s fmt ∧
      (a, b) ∈ stepsOf s (stateWrites (handleDownload s fmt env))) ∨
    (retryEnabled s ∧
      ∃ res, (a, b) ∈ stepsOf s (stateWrites (handleRetry s res))) ∨
    (newDownloadEnabled s ∧
      (a, b) ∈ stepsOf s (stateWrites (handleNewDownload s)))

/-- The six edges of the finite-state diagram claimed by the specification
(idle to analyzing, analyzing to ready or error, ready to downloading,
downloading to completed or error). This definition follows the words of
the claim, to be compared with the step relation derived from the code. -/
def specEdgeList : List (AppState × AppState) :=
  [(.idle, .analyzing), (.analyzing, .ready), (.analyzing, .error),
   (.ready, .downloading), (.downloading, .completed), (.downloading, .error)]

def specEdge (a b : AppState) : Bool := specEdgeList.contains (a, b)

/-- The edges the code actually realizes: the claimed diagram plus the demo
download rejection, the retry edges and the reset edge. -/
def extendedEdgeList : List (AppState × AppState) :=
  specEdgeList ++
  [(.ready, .error), (.error, .analyzing), (.error, .idle),
   (.completed, .idle)]

def extendedEdge (a b : AppState) : Bool := extendedEdgeList.contains (a, b)

end VG.App

namespace VG.Inputs

/-! Concrete inputs used by witnesses and counterexamples. -/

open VG

/-- A format marked demoMode that nevertheless carries a genuine download
URL (the App.tsx handler does not read the demoMode flag). -/
def demoFlaggedFmt : VideoFormat :=
  { quality := "1080p", resolution := "1920x1080", size := "Unknown",
    format := "MP4", type := .video,
    downloadUrl := some "https://cdn.example.com/video.mp4",
    formatId := some "f1", demoMode := true,
    originalUrl := some "https://youtube.com/watch?v=abc" }

/-- A ready state whose video info carries demoFlaggedFmt. -/
def readyState : VG.App.AppFull :=
  { appState := .ready,
    videoInfo := some
      { title := "T", thumbnail := "th", duration := "1:00",
        platform := "YouTube", formats := [demoFlaggedFmt], apiData := {} },
    error := "", downloadProgress := none,
    currentUrl := "https://youtube.com/watch?v=abc" }

/-- A format with no download URL at all. -/
def nullUrlFmt : VideoFormat :=
  { quality := "720p", resolution := "1280x720", size := "Unknown",
    format := "MP4", type := .video, downloadUrl := none,
    formatId := some "demo-720p", demoMode := true }

/-- A plain downloadable format. -/
def realUrlFmt : VideoFormat :=
  { quality := "720p", resolution := "1280x720", size := "10 MB",
    format := "MP4", type := .video,
    downloadUrl := some "https://example.com/v.mp4",
    formatId := some "r1" }

/-- The component state right after a completed download. -/
def completedState : VG.App.AppFull :=
  { appState := .completed, videoInfo := none, error := "",
    downloadProgress := none, currentUrl := "" }

/-- An environment in which every backend fetch fails at the network
level. -/
def allFailEnv : Nat → VG.ChainA.FetchOutcome := fun _ => .netFail

/-- An environment in which the first backend (cobalt) answers ok with a
redirect payload. -/
def cobaltOkEnv : Nat → VG.ChainA.FetchOutcome := fun _ =>
  .httpResp true (some { status := some "redirect",
                         url := some "https://files.example.com/clip.mp4" })

end VG.Inputs

/-! ## Theorems -/

open VG

/-- C8: for every videoId and originalUrl, generateDemoFormats returns
exactly four formats, three MP4 video formats at 1080p, 720p and 480p and
one MP3 audio format, and every one of them has no downloadUrl and is
marked demoMode, so no demo-mode format carries a real download link. -/
theorem c8_generateDemoFormats (vid url : String) :
    (generateDemoFormats vid url).length = 4 ∧
    (generateDemoFormats vid url).map (fun f => f.quality) =
      ["1080p", "720p", "480p", "128kbps"] ∧
    (generateDemoFormats vid url).map (fun f => f.format) =
      ["MP4", "MP4", "MP4", "MP3"] ∧
    (generateDemoFormats vid url).map (fun f => f.type) =
      [.video, .video, .video, .audio] ∧
    ∀ f ∈ generateDemoFormats vid url,
      f.downloadUrl = none ∧ f.demoMode = true := by
  refine ⟨rfl, rfl, rfl, rfl, ?_⟩
  intro f hf
  simp only [generateDemoFormats, List.mem_cons, List.not_mem_nil,
    or_false] at hf
  rcases hf with h | h | h | h <;> subst h <;> exact ⟨rfl, rfl⟩

/-- C7: the component state consists of the five useState variables
modelled by AppFull, and handleNewDownload resets every one of them to its
initial value (idle, no video info, empty error, no progress, empty url)
from any state. -/
theorem c7_handleNewDownload_resets (s : VG.App.AppFull) :
    (VG.App.handleNewDownload s).final = VG.App.initialApp ∧
    VG.App.initialApp.appState = .idle ∧
    VG.App.initialApp.videoInfo = none ∧
    VG.App.initialApp.error = "" ∧
    VG.App.initialApp.downloadProgress = none ∧
    VG.App.initialApp.currentUrl = "" :=
  ⟨rfl, rfl, rfl, rfl, rfl, rfl⟩

/-- C4: analyzeVideo validates first: a string that does not parse as a URL
is rejected with the message Invalid URL format, and a parseable URL whose
hostname contains none of the eleven supported domains is rejected with the
platform-not-supported message; in both cases no video data is produced
(and this analyzer performs no backend request at all). -/
theorem c4_analyzeVideo_validation (url : String) (env : VG.Mock.MockEnv) :
    (isValidUrl url = false →
      VG.Mock.analyzeVideo url env = Except.error "Invalid URL format") ∧
    (isValidUrl url = true → isSupportedPlatform url = false →
      VG.Mock.analyzeVideo url env =
        Except.error "Platform not supported. We support YouTube, Instagram, TikTok, Twitter, and more.") := by
  constructor
  · intro h
    simp [VG.Mock.analyzeVideo, h]
  · intro h1 h2
    simp [VG.Mock.analyzeVideo, h1, h2]

/-- C2: with every backend HTTP call unavailable (the Railway fetch throws,
returns a non-ok response, or its body fails to parse), analyzeVideo of the
mock-fallback variant still resolves with the randomly generated mock video
data, which carries the mock marker; it does not reject. -/
theorem c2_analyzeVideo_mock_fallback (url : String)
    (env : VG.MockFB.SimEnv)
    (hv : isValidUrl url = true) (hp : isSupportedPlatform url = true)
    (hb : ∀ d, env.railway ≠ VG.MockFB.FetchOutcomeD.httpResp true (some d)) :
    VG.MockFB.analyzeVideo url env =
      Except.ok (VG.MockFB.simulateVideoAnalysis url env) ∧
    (VG.MockFB.simulateVideoAnalysis url env).apiData.mock = true := by
  refine ⟨?_, rfl⟩
  unfold VG.MockFB.analyzeVideo
  rcases henv : env.railway with _ | ⟨ok, body⟩
  · simp [hv, hp]
  · rcases ok with _ | _
    · simp [hv, hp]
    · rcases body with _ | ⟨d⟩
      · simp [hv, hp]
      · exact absurd henv (hb d)

theorem c2_analyzeVideo_mock_fallback_witness :
    VG.MockFB.analyzeVideo "https://youtube.com/watch?v=dQw4w9WgXcQ" {} =
      Except.ok (VG.MockFB.simulateVideoAnalysis
        "https://youtube.com/watch?v=dQw4w9WgXcQ" {}) ∧
    (VG.MockFB.simulateVideoAnalysis
      "https://youtube.com/watch?v=dQw4w9WgXcQ" {}).apiData.mock = true :=
  c2_analyzeVideo_mock_fallback "https://youtube.com/watch?v=dQw4w9WgXcQ" {}
    (by decide) (by decide) (fun d h => by cases h)

theorem listStarts_trans :
    ∀ (x y z : List Char), listStarts x y = true → listStarts y z = true →
      listStarts x z = true := by
  intro x y z
  induction z generalizing x y with
  | nil =>
    intro _ _
    cases x <;> rfl
  | cons c zs ih =>
    intro hxy hyz
    cases y with
    | nil => simp [listStarts] at hyz
    | cons b ys =>
      cases x with
      | nil => simp [listStarts] at hxy
      | cons a xs =>
        simp only [listStarts, Bool.and_eq_true, beq_iff_eq] at hxy hyz ⊢
        exact ⟨hxy.1.trans hyz.1, ih xs ys hxy.2 hyz.2⟩

theorem listHas_mono (d k : List Char) (hdk : listStarts d k = true) :
    ∀ l, listHas l d = true → listHas l k = true := by
  intro l
  induction l with
  | nil =>
    intro hl
    simp only [listHas, List.isEmpty_iff] at hl
    subst hl
    cases k with
    | nil => rfl
    | cons c cs => simp [listStarts] at hdk
  | cons a t ih =>
    intro hl
    simp only [listHas, Bool.or_eq_true] at hl ⊢
    rcases hl with h1 | h2
    · exact Or.inl (listStarts_trans _ _ _ h1 hdk)
    · exact Or.inr (ih h2)

theorem platformName_ne_unknown (domain : String)
    (h : strHas domain "youtube" = true ∨ strHas domain "youtu.be" = true ∨
         strHas domain "facebook" = true ∨ strHas domain "fb.watch" = true ∨
         strHas domain "instagram" = true ∨ strHas domain "tiktok" = true ∨
         strHas domain "twitter" = true ∨ strHas domain "x.com" = true ∨
         strHas domain "vimeo" = true ∨ strHas domain "dailymotion" = true ∨
         strHas domain "twitch" = true) :
    platformNameOfDomain domain ≠ "Unknown Platform" := by
  unfold platformNameOfDomain
  split_ifs with h1 h2 h3 h4 h5 h6 h7 h8
  · decide
  · decide
  · decide
  · decide
  · decide
  · decide
  · decide
  · decide
  · simp only [Bool.or_eq_true, not_or, Bool.not_eq_true] at h1 h2 h5 h7
    rcases h with h | h | h | h | h | h | h | h | h | h | h <;>
      simp_all

/-- C9: every URL accepted by isSupportedPlatform is mapped by
getPlatformName to one of the named platforms, never to Unknown Platform
(each supported domain string is covered by a branch of the name chain). -/
theorem c9_supported_platform_named (url : String)
    (h : isSupportedPlatform url = true) :
    getPlatformName url ≠ "Unknown Platform" := by
  unfold isSupportedPlatform at h
  unfold getPlatformName
  cases hp : parseUrl url with
  | none => rw [hp] at h; simp at h
  | some parts =>
    rw [hp] at h
    apply platformName_ne_unknown
    simp only [supportedDomains, List.any_cons, List.any_nil,
      Bool.or_eq_true, Bool.false_eq_true, or_false] at h
    rcases h with h | h | h | h | h | h | h | h | h | h | h
    · have h2 := listHas_mono "youtube.com".data "youtube".data (by decide)
        _ h
      tauto
    · tauto
    · have h2 := listHas_mono "instagram.com".data "instagram".data
        (by decide) _ h
      tauto
    · have h2 := listHas_mono "tiktok.com".data "tiktok".data (by decide)
        _ h
      tauto
    · have h2 := listHas_mono "twitter.com".data "twitter".data (by decide)
        _ h
      tauto
    · tauto
    · have h2 := listHas_mono "facebook.com".data "facebook".data
        (by decide) _ h
      tauto
    · tauto
    · have h2 := listHas_mono "vimeo.com".data "vimeo".data (by decide) _ h
      tauto
    · have h2 := listHas_mono "dailymotion.com".data "dailymotion".data
        (by decide) _ h
      tauto
    · have h2 := listHas_mono "twitch.tv".data "twitch".data (by decide) _ h
      tauto

theorem c9_supported_platform_named_witness :
    isSupportedPlatform "https://tiktok.com/@user/video/1" = true ∧
    getPlatformName "https://tiktok.com/@user/video/1" ≠ "Unknown Platform" :=
  ⟨by decide,
   c9_supported_platform_named "https://tiktok.com/@user/video/1" (by decide)⟩

theorem fdiv_cast_3600 (n : Nat) :
    Int.fdiv (n : Int) 3600 = ((n / 3600 : Nat) : Int) := by
  cases n with
  | zero => simp [Int.fdiv]
  | succ j => rfl

theorem tmod_cast_3600 (n : Nat) :
    Int.tmod (n : Int) 3600 = ((n % 3600 : Nat) : Int) := by
  cases n with
  | zero => simp [Int.tmod]
  | succ j => rfl

theorem fdiv_cast_60 (n : Nat) :
    Int.fdiv (n : Int) 60 = ((n / 60 : Nat) : Int) := by
  cases n with
  | zero => simp [Int.fdiv]
  | succ j => rfl

theorem tmod_cast_60 (n : Nat) :
    Int.tmod (n : Int) 60 = ((n % 60 : Nat) : Int) := by
  cases n with
  | zero => simp [Int.tmod]
  | succ j => rfl

theorem toString_natCast (m : Nat) :
    toString ((m : Nat) : Int) = toString m := rfl

theorem formatDuration_pos (n : Nat) (h1 : 0 < n) :
    formatDuration (.num n) = formatDurationInt n := by
  have hfalsy : jsFalsyDur (.num (n : Int)) = false := by
    simp [jsFalsyDur]
    omega
  simp [formatDuration, hfalsy]

theorem formatDurationInt_lo (n : Nat) (h2 : n < 3600) :
    formatDurationInt n =
      toString (n / 60) ++ ":" ++ jsPadStart2 (toString (n % 60)) := by
  unfold formatDurationInt
  simp only [fdiv_cast_3600, tmod_cast_3600, fdiv_cast_60, tmod_cast_60,
    Int.natCast_pos, toString_natCast]
  rw [if_neg (by omega)]
  rw [Nat.mod_eq_of_lt h2]

theorem formatDurationInt_hi (n : Nat) (h1 : 3600 ≤ n) :
    formatDurationInt n =
      toString (n / 3600) ++ ":" ++ jsPadStart2 (toString ((n % 3600) / 60)) ++
        ":" ++ jsPadStart2 (toString (n % 60)) := by
  unfold formatDurationInt
  simp only [fdiv_cast_3600, tmod_cast_3600, fdiv_cast_60, tmod_cast_60,
    Int.natCast_pos, toString_natCast]
  rw [if_pos (by omega)]

/-- C10: formatDuration returns Unknown for the input 0 and for unparseable
string input; a positive number of seconds under one hour is rendered M:SS
and at least an hour is rendered H:MM:SS, where the rendered minute and
second values are below 60, the padded fields fill exactly two digits, and
the fields recombine to the input number of seconds. -/
theorem c10_formatDuration :
    formatDuration (.num 0) = "Unknown" ∧
    (∀ s : String, jsParseInt s = none →
      formatDuration (.str s) = "Unknown") ∧
    (∀ n : Nat, 0 < n → n < 3600 →
      formatDuration (.num n) =
        toString (n / 60) ++ ":" ++ jsPadStart2 (toString (n % 60)) ∧
      n / 60 < 60 ∧ n % 60 < 60 ∧ (n / 60) * 60 + n % 60 = n) ∧
    (∀ n : Nat, 3600 ≤ n →
      formatDuration (.num n) =
        toString (n / 3600) ++ ":" ++
          jsPadStart2 (toString ((n % 3600) / 60)) ++ ":" ++
          jsPadStart2 (toString (n % 60)) ∧
      (n % 3600) / 60 < 60 ∧ n % 60 < 60 ∧
      (n / 3600) * 3600 + ((n % 3600) / 60) * 60 + n % 60 = n) ∧
    (∀ m : Nat, m < 60 → (jsPadStart2 (toString m)).length = 2) := by
  refine ⟨rfl, ?_, ?_, ?_, by decide⟩
  · intro s hs
    by_cases h : s = ""
    · simp [formatDuration, jsFalsyDur, beq_iff_eq, h]
    · simp [formatDuration, jsFalsyDur, beq_iff_eq, h, hs]
  · intro n h1 h2
    refine ⟨?_, by omega, by omega, by omega⟩
    rw [formatDuration_pos n h1, formatDurationInt_lo n h2]
  · intro n h1
    refine ⟨?_, by omega, by omega, by omega⟩
    rw [formatDuration_pos n (by omega), formatDurationInt_hi n h1]

theorem c10_formatDuration_witness :
    formatDuration (.str "abc") = "Unknown" ∧
    formatDuration (.num 65) = "1:05" ∧
    formatDuration (.num 3725) = "1:02:05" ∧
    (jsPadStart2 (toString 5)).length = 2 :=
  ⟨c10_formatDuration.2.1 "abc" (by decide),
   (c10_formatDuration.2.2.1 65 (by decide) (by decide)).1.trans (by decide),
   (c10_formatDuration.2.2.2.1 3725 (by decide)).1.trans (by decide),
   c10_formatDuration.2.2.2.2 5 (by decide)⟩

theorem c4_analyzeVideo_validation_witness :
    isValidUrl "not a url" = false ∧
    VG.Mock.analyzeVideo "not a url" {} =
      Except.error "Invalid URL format" ∧
    isValidUrl "https://example.com/watch" = true ∧
    isSupportedPlatform "https://example.com/watch" = false ∧
    VG.Mock.analyzeVideo "https://example.com/watch" {} =
      Except.error "Platform not supported. We support YouTube, Instagram, TikTok, Twitter, and more." :=
  ⟨by decide, (c4_analyzeVideo_validation "not a url" {}).1 (by decide),
   by decide, by decide,
   (c4_analyzeVideo_validation "https://example.com/watch" {}).2 (by decide)
     (by decide)⟩

theorem dlLoopF_pct_le (env : VG.App.DLEnv) :
    ∀ fuel n i, ∀ p ∈ VG.App.dlLoopF env fuel n i, p.percentage ≤ 100 := by
  intro fuel
  induction fuel with
  | zero =>
    intro n i p hp
    simp [VG.App.dlLoopF] at hp
  | succ f ih =>
    intro n i p hp
    simp only [VG.App.dlLoopF] at hp
    split at hp
    · rcases List.mem_cons.mp hp with h | h
      · subst h
        simp [VG.App.mkProgress]
      · exact ih _ _ p h
    · simp at hp

theorem dlLoopF_chain (env : VG.App.DLEnv) :
    ∀ fuel n i, List.Chain' (· ≤ ·)
      (min i 100 ::
        ((VG.App.dlLoopF env fuel n i).map (fun p => p.percentage) ++
          [100])) := by
  intro fuel
  induction fuel with
  | zero =>
    intro n i
    simp [VG.App.dlLoopF, List.chain'_cons]
  | succ f ih =>
    intro n i
    simp only [VG.App.dlLoopF]
    split
    · simp only [List.map_cons, VG.App.mkProgress, List.cons_append]
      rw [List.chain'_cons]
      refine ⟨le_refl _, ?_⟩
      have h2 := ih (n + 1) (i + VG.App.dlStep env n)
      rw [List.chain'_cons'] at h2 ⊢
      refine ⟨?_, h2.2⟩
      intro x hx
      have h3 := h2.1 x hx
      have h4 : min i 100 ≤ min (i + VG.App.dlStep env n) 100 := by omega
      omega
    · simp [List.chain'_cons]

theorem handleDownload_percs (s : VG.App.AppFull) (fmt : VG.VideoFormat)
    (env : VG.App.DLEnv) (hdemo : VG.App.demoCond fmt = false) :
    VG.App.progressPercents (VG.App.handleDownload s fmt env) =
      0 :: ((VG.App.dlLoopWrites env).map (fun p => p.percentage) ++
        (if env.domOk then [100] else [])) := by
  unfold VG.App.handleDownload
  rw [hdemo]
  cases hdom : env.domOk with
  | true =>
    simp only [VG.App.progressPercents, List.filterMap_cons,
      List.filterMap_append, List.filterMap_map, if_true,
      VG.App.initialProgress, VG.App.completeProgress]
    generalize VG.App.dlLoopWrites env = l
    induction l with
    | nil => rfl
    | cons a t ih => simpa [List.filterMap_cons] using ih
  | false =>
    simp only [VG.App.progressPercents, List.filterMap_cons,
      List.filterMap_append, List.filterMap_map, if_false,
      VG.App.initialProgress, Bool.false_eq_true, List.append_nil]
    generalize VG.App.dlLoopWrites env = l
    induction l with
    | nil => rfl
    | cons a t ih => simpa [List.filterMap_cons] using ih

/-- C6: during a non-demo download run, the written progress percentages
start at 0, are monotonically non-decreasing, never exceed 100, and when
the run succeeds a write of exactly 100 occurs before the appState write of
completed. -/
theorem c6_download_progress (s : VG.App.AppFull) (fmt : VG.VideoFormat)
    (env : VG.App.DLEnv) (hdemo : VG.App.demoCond fmt = false) :
    (VG.App.progressPercents (VG.App.handleDownload s fmt env)).head? =
      some 0 ∧
    List.Chain' (· ≤ ·)
      (VG.App.progressPercents (VG.App.handleDownload s fmt env)) ∧
    (∀ p ∈ VG.App.progressPercents (VG.App.handleDownload s fmt env),
      p ≤ 100) ∧
    (env.domOk = true →
      ∃ pre post,
        (VG.App.handleDownload s fmt env).events =
          pre ++ VG.App.AppEvent.progW (some VG.App.completeProgress) ::
            VG.App.AppEvent.stateW .completed :: post ∧
        VG.App.completeProgress.percentage = 100) := by
  refine ⟨?_, ?_, ?_, ?_⟩
  · rw [handleDownload_percs s fmt env hdemo]
    rfl
  · rw [handleDownload_percs s fmt env hdemo]
    cases hdom : env.domOk with
    | true =>
      simp only [if_true]
      simpa [VG.App.dlLoopWrites] using dlLoopF_chain env 101 0 0
    | false =>
      simp only [Bool.false_eq_true, if_false, List.append_nil]
      have h := dlLoopF_chain env 101 0 0
      have h2 : List.Chain' (· ≤ ·)
          ((0 :: (VG.App.dlLoopWrites env).map (fun p => p.percentage)) ++
            [100]) := by
        simpa [VG.App.dlLoopWrites] using h
      exact (List.chain'_append.mp h2).1
  · rw [handleDownload_percs s fmt env hdemo]
    intro p hp
    rcases List.mem_cons.mp hp with h | h
    · omega
    · rcases List.mem_append.mp h with h2 | h2
      · rcases List.mem_map.mp h2 with ⟨q, hq, rfl⟩
        exact dlLoopF_pct_le env 101 0 0 q hq
      · rcases hdom : env.domOk with _ | _ <;> rw [hdom] at h2 <;> simp at h2
        omega
  · intro hdom
    refine ⟨VG.App.AppEvent.stateW .downloading ::
      VG.App.AppEvent.progW (some VG.App.initialProgress) ::
      ((VG.App.dlLoopWrites env).map
        (fun p => VG.App.AppEvent.progW (some p))),
      [VG.App.AppEvent.progW none], ?_, rfl⟩
    unfold VG.App.handleDownload
    rw [hdemo, hdom]
    simp

theorem c6_download_progress_witness :
    VG.App.demoCond VG.Inputs.realUrlFmt = false ∧
    ((VG.App.progressPercents (VG.App.handleDownload VG.App.initialApp
        VG.Inputs.realUrlFmt {})).head? = some 0 ∧
     List.Chain' (· ≤ ·) (VG.App.progressPercents
       (VG.App.handleDownload VG.App.initialApp VG.Inputs.realUrlFmt {})) ∧
     (∀ p ∈ VG.App.progressPercents
        (VG.App.handleDownload VG.App.initialApp VG.Inputs.realUrlFmt {}),
        p ≤ 100) ∧
     (({} : VG.App.DLEnv).domOk = true →
       ∃ pre post,
         (VG.App.handleDownload VG.App.initialApp
           VG.Inputs.realUrlFmt {}).events =
           pre ++ VG.App.AppEvent.progW (some VG.App.completeProgress) ::
             VG.App.AppEvent.stateW .completed :: post ∧
         VG.App.completeProgress.percentage = 100)) :=
  ⟨by decide,
   c6_download_progress VG.App.initialApp VG.Inputs.realUrlFmt {} (by decide)⟩

/-- C5 counterexample: a format marked demoMode that carries a genuine
downloadUrl. The App.tsx download handler, which tests only the downloadUrl
(absent or "#demo"), does trigger a browser download for it and finishes in
completed rather than error, so the claim as stated is false. -/
theorem c5_counterexample :
    VG.Inputs.demoFlaggedFmt.demoMode = true ∧
    (VG.App.handleDownload VG.Inputs.readyState
      VG.Inputs.demoFlaggedFmt {}).downloadTriggered = true ∧
    (VG.App.handleDownload VG.Inputs.readyState
      VG.Inputs.demoFlaggedFmt {}).final.appState = .completed ∧
    (VG.App.handleDownload VG.Inputs.readyState
      VG.Inputs.demoFlaggedFmt {}).final.appState ≠ .error := by
  refine ⟨rfl, ?_, ?_, ?_⟩ <;> decide

/-- C5 amended: for every format whose downloadUrl is absent, empty or
equal to "#demo", the App.tsx download handler triggers no browser
download, sets the explanatory demo message, transitions to error, and
leaves the video info and the rest of the state unchanged; the demoMode
flag is not consulted by this handler (only the part_006 variant checks
it). -/
theorem c5_demo_download (s : VG.App.AppFull) (fmt : VG.VideoFormat)
    (env : VG.App.DLEnv)
    (h : fmt.downloadUrl = none ∨ fmt.downloadUrl = some "" ∨
         fmt.downloadUrl = some "#demo") :
    (VG.App.handleDownload s fmt env).downloadTriggered = false ∧
    (VG.App.handleDownload s fmt env).final.appState = .error ∧
    (VG.App.handleDownload s fmt env).final.error =
      "This is a demo. In a real implementation, the file would be downloaded from: "
        ++ jsOrStr fmt.downloadUrl "N/A" ∧
    (VG.App.handleDownload s fmt env).final.videoInfo = s.videoInfo ∧
    (VG.App.handleDownload s fmt env).final.downloadProgress =
      s.downloadProgress ∧
    (VG.App.handleDownload s fmt env).final.currentUrl = s.currentUrl ∧
    (VG.App.handleDownload s fmt env).events =
      [VG.App.AppEvent.stateW .error] := by
  have hd : VG.App.demoCond fmt = true := by
    rcases h with h | h | h <;> simp [VG.App.demoCond, jsTruthyS, h]
  unfold VG.App.handleDownload
  rw [hd]
  exact ⟨rfl, rfl, rfl, rfl, rfl, rfl, rfl⟩

theorem c5_demo_download_witness :
    VG.Inputs.nullUrlFmt.downloadUrl = none ∧
    (VG.App.handleDownload VG.App.initialApp
      VG.Inputs.nullUrlFmt {}).downloadTriggered = false ∧
    (VG.App.handleDownload VG.App.initialApp
      VG.Inputs.nullUrlFmt {}).final.appState = .error :=
  ⟨rfl,
   (c5_demo_download VG.App.initialApp VG.Inputs.nullUrlFmt {}
     (Or.inl rfl)).1,
   (c5_demo_download VG.App.initialApp VG.Inputs.nullUrlFmt {}
     (Or.inl rfl)).2.1⟩

theorem stateWrites_handleDownload (s : VG.App.AppFull) (fmt : VG.VideoFormat)
    (env : VG.App.DLEnv) :
    VG.App.stateWrites (VG.App.handleDownload s fmt env) =
      if VG.App.demoCond fmt then [.error]
      else if env.domOk then [.downloading, .completed]
      else [.downloading, .error] := by
  unfold VG.App.handleDownload
  cases hd : VG.App.demoCond fmt with
  | true => simp [VG.App.stateWrites]
  | false =>
    cases hdom : env.domOk with
    | true =>
      simp only [Bool.false_eq_true, if_false, if_true, VG.App.stateWrites,
        List.filterMap_cons, List.filterMap_append, List.filterMap_map]
      generalize VG.App.dlLoopWrites env = l
      induction l with
      | nil => rfl
      | cons a t ih => simpa [List.filterMap_cons] using ih
    | false =>
      simp only [Bool.false_eq_true, if_false, VG.App.stateWrites,
        List.filterMap_cons, List.filterMap_append, List.filterMap_map]
      generalize VG.App.dlLoopWrites env = l
      induction l with
      | nil => rfl
      | cons a t ih => simpa [List.filterMap_cons] using ih

/-- C1 counterexample: the start-new-download handler, invocable in the
completed state, performs the transition completed to idle, which is not an
edge of the claimed six-state diagram, so the claim as stated is false. -/
theorem c1_counterexample :
    VG.App.appStep .completed .idle ∧
    VG.App.specEdge .completed .idle = false := by
  constructor
  · refine ⟨VG.Inputs.completedState, Or.inr (Or.inr (Or.inr ⟨rfl, ?_⟩))⟩
    simp [VG.App.handleNewDownload, VG.App.stateWrites, VG.App.stepsOf,
      VG.Inputs.completedState]
  · rfl

/-- C1 amended: the UI state takes the six declared values, and every
handler step follows the claimed diagram extended with four further edges
realized by the code: ready to error (demo-format download rejection),
error to analyzing and error to idle (retry), and completed to idle
(start-new-download reset). -/
theorem c1_amended (a b : VG.AppState) (h : VG.App.appStep a b) :
    VG.App.extendedEdge a b = true := by
  obtain ⟨s, hcase⟩ := h
  rcases hcase with ⟨hen, url, res, hmem⟩ | ⟨fmt, env, hen, hmem⟩ |
    ⟨hen, res, hmem⟩ | ⟨hen, hmem⟩
  · unfold VG.App.submitEnabled at hen
    cases res with
    | ok info =>
      have hsw : VG.App.stateWrites (VG.App.handleUrlSubmit s url
          (Except.ok info)) = [.analyzing, .ready] := rfl
      rw [hsw] at hmem
      simp [VG.App.stepsOf, hen] at hmem
      rcases hmem with ⟨rfl, rfl⟩ | ⟨rfl, rfl⟩ <;> decide
    | error m =>
      have hsw : VG.App.stateWrites (VG.App.handleUrlSubmit s url
          (Except.error m)) = [.analyzing, .error] := rfl
      rw [hsw] at hmem
      simp [VG.App.stepsOf, hen] at hmem
      rcases hmem with ⟨rfl, rfl⟩ | ⟨rfl, rfl⟩ <;> decide
  · obtain ⟨hst, -, -⟩ := hen
    rw [stateWrites_handleDownload] at hmem
    cases hd : VG.App.demoCond fmt with
    | true =>
      rw [hd] at hmem
      simp [VG.App.stepsOf, hst] at hmem
      obtain ⟨rfl, rfl⟩ := hmem
      decide
    | false =>
      rw [hd] at hmem
      cases hdom : env.domOk with
      | true =>
        rw [hdom] at hmem
        simp [VG.App.stepsOf, hst] at hmem
        rcases hmem with ⟨rfl, rfl⟩ | ⟨rfl, rfl⟩ <;> decide
      | false =>
        rw [hdom] at hmem
        simp [VG.App.stepsOf, hst] at hmem
        rcases hmem with ⟨rfl, rfl⟩ | ⟨rfl, rfl⟩ <;> decide
  · unfold VG.App.retryEnabled at hen
    unfold VG.App.handleRetry at hmem
    cases hcu : (s.currentUrl != "") with
    | true =>
      rw [hcu] at hmem
      cases res with
      | ok info =>
        have hsw : VG.App.stateWrites (VG.App.handleUrlSubmit s s.currentUrl
            (Except.ok info)) = [.analyzing, .ready] := rfl
        rw [if_pos rfl] at hmem
        rw [hsw] at hmem
        simp [VG.App.stepsOf, hen] at hmem
        rcases hmem with ⟨rfl, rfl⟩ | ⟨rfl, rfl⟩ <;> decide
      | error m =>
        have hsw : VG.App.stateWrites (VG.App.handleUrlSubmit s s.currentUrl
            (Except.error m)) = [.analyzing, .error] := rfl
        rw [if_pos rfl] at hmem
        rw [hsw] at hmem
        simp [VG.App.stepsOf, hen] at hmem
        rcases hmem with ⟨rfl, rfl⟩ | ⟨rfl, rfl⟩ <;> decide
    | false =>
      rw [hcu] at hmem
      simp [VG.App.stepsOf, VG.App.stateWrites, hen] at hmem
      obtain ⟨rfl, rfl⟩ := hmem
      decide
  · unfold VG.App.newDownloadEnabled at hen
    have hsw : VG.App.stateWrites (VG.App.handleNewDownload s) = [.idle] := rfl
    rw [hsw] at hmem
    simp [VG.App.stepsOf, hen] at hmem
    rcases hmem with ⟨rfl, rfl⟩
    decide

theorem c1_amended_witness : VG.App.extendedEdge .completed .idle = true :=
  c1_amended .completed .idle
    ⟨VG.Inputs.completedState, Or.inr (Or.inr (Or.inr ⟨rfl, by
      simp [VG.App.handleNewDownload, VG.App.stateWrites, VG.App.stepsOf,
        VG.Inputs.completedState]⟩))⟩

theorem attemptAtFrom_succ (url : String) (env : Nat → VG.ChainA.FetchOutcome)
    (i : Nat) (e : VG.ChainA.Endpoint) (rest : List VG.ChainA.Endpoint)
    (j : Nat) :
    VG.ChainA.attemptAtFrom url env i (e :: rest) (j + 1) =
      VG.ChainA.attemptAtFrom url env (i + 1) rest j := by
  simp only [VG.ChainA.attemptAtFrom, List.getElem?_cons_succ]
  cases rest[j]? with
  | none => rfl
  | some e2 =>
    have : i + (j + 1) = i + 1 + j := by omega
    rw [this]

theorem runFrom_spec (url : String) (env : Nat → VG.ChainA.FetchOutcome) :
    ∀ (eps : List VG.ChainA.Endpoint) (i : Nat),
      ((VG.ChainA.runFrom url env i eps).2 = none →
        (VG.ChainA.runFrom url env i eps).1 = List.range' i eps.length ∧
        ∀ j, j < eps.length →
          VG.ChainA.attemptAtFrom url env i eps j = none) ∧
      (∀ v, (VG.ChainA.runFrom url env i eps).2 = some v →
        ∃ k, k < eps.length ∧
          (VG.ChainA.runFrom url env i eps).1 = List.range' i (k + 1) ∧
          (∀ j, j < k → VG.ChainA.attemptAtFrom url env i eps j = none) ∧
          VG.ChainA.attemptAtFrom url env i eps k = some v) := by
  intro eps
  induction eps with
  | nil =>
    intro i
    constructor
    · intro _
      refine ⟨rfl, ?_⟩
      intro j hj
      simp at hj
    · intro v hv
      simp [VG.ChainA.runFrom] at hv
  | cons e rest ih =>
    intro i
    constructor
    · intro hnone
      cases hat : VG.ChainA.attempt url env i e with
      | some v => simp [VG.ChainA.runFrom, hat] at hnone
      | none =>
        simp only [VG.ChainA.runFrom, hat] at hnone ⊢
        obtain ⟨hc, hall⟩ := (ih (i + 1)).1 hnone
        constructor
        · simp [hc, List.range']
        · intro j hj
          cases j with
          | zero => simpa [VG.ChainA.attemptAtFrom] using hat
          | succ jj =>
            rw [attemptAtFrom_succ]
            exact hall jj (by simpa using hj)
    · intro v hv
      cases hat : VG.ChainA.attempt url env i e with
      | some w =>
        simp only [VG.ChainA.runFrom, hat] at hv ⊢
        obtain rfl : w = v := by simpa using hv
        refine ⟨0, by simp, by simp [List.range'], ?_, ?_⟩
        · intro j hj
          omega
        · simpa [VG.ChainA.attemptAtFrom] using hat
      | none =>
        simp only [VG.ChainA.runFrom, hat] at hv ⊢
        obtain ⟨k, hk, hc, hprev, hlast⟩ := (ih (i + 1)).2 v hv
        refine ⟨k + 1, by simpa using Nat.succ_lt_succ hk, ?_, ?_, ?_⟩
        · simp [hc, List.range']
        · intro j hj
          cases j with
          | zero => simpa [VG.ChainA.attemptAtFrom] using hat
          | succ jj =>
            rw [attemptAtFrom_succ]
            exact hprev jj (by omega)
        · rw [attemptAtFrom_succ]
          exact hlast

/-- C3: the backend chain tries the configured endpoints sequentially in
their listed order: the contacted indices are an initial range, every
endpoint before the successful one failed (network failure, non-ok
response, unparseable body, invalid data, or a throwing transform), the
returned value is the transformed response of the first successful
endpoint, and when none succeeds all endpoints were contacted; a successful
chain result is what analyzeVideo resolves with. -/
theorem c3_backend_chain (url : String)
    (env : Nat → VG.ChainA.FetchOutcome) :
    ((VG.ChainA.runFrom url env 0 VG.ChainA.backendEndpoints).2 = none →
      (VG.ChainA.runFrom url env 0 VG.ChainA.backendEndpoints).1 =
        List.range' 0 VG.ChainA.backendEndpoints.length ∧
      ∀ j, j < VG.ChainA.backendEndpoints.length →
        VG.ChainA.attemptAtFrom url env 0 VG.ChainA.backendEndpoints j =
          none) ∧
    (∀ v,
      (VG.ChainA.runFrom url env 0 VG.ChainA.backendEndpoints).2 = some v →
      ∃ k, k < VG.ChainA.backendEndpoints.length ∧
        (VG.ChainA.runFrom url env 0 VG.ChainA.backendEndpoints).1 =
          List.range' 0 (k + 1) ∧
        (∀ j, j < k →
          VG.ChainA.attemptAtFrom url env 0 VG.ChainA.backendEndpoints j =
            none) ∧
        VG.ChainA.attemptAtFrom url env 0 VG.ChainA.backendEndpoints k =
          some v) ∧
    (∀ v,
      (VG.ChainA.runFrom url env 0 VG.ChainA.backendEndpoints).2 = some v →
      isValidUrl url = true → isSupportedPlatform url = true →
      VG.ChainA.analyzeVideo url { fetch := env } = Except.ok v) :=
  ⟨(runFrom_spec url env VG.ChainA.backendEndpoints 0).1,
   (runFrom_spec url env VG.ChainA.backendEndpoints 0).2,
   by
    intro v hv h1 h2
    simp [VG.ChainA.analyzeVideo, h1, h2, hv]⟩

theorem c3_backend_chain_witness :
    ((VG.ChainA.runFrom "https://youtu.be/abc" VG.Inputs.allFailEnv 0
        VG.ChainA.backendEndpoints).2 = none ∧
     (VG.ChainA.runFrom "https://youtu.be/abc" VG.Inputs.allFailEnv 0
        VG.ChainA.backendEndpoints).1 =
       List.range' 0 VG.ChainA.backendEndpoints.length ∧
     ∀ j, j < VG.ChainA.backendEndpoints.length →
       VG.ChainA.attemptAtFrom "https://youtu.be/abc" VG.Inputs.allFailEnv 0
         VG.ChainA.backendEndpoints j = none) ∧
    (∃ v,
      (VG.ChainA.runFrom "https://youtu.be/abc" VG.Inputs.cobaltOkEnv 0
        VG.ChainA.backendEndpoints).2 = some v ∧
      VG.ChainA.analyzeVideo "https://youtu.be/abc"
        { fetch := VG.Inputs.cobaltOkEnv } = Except.ok v) :=
  ⟨⟨rfl, (c3_backend_chain "https://youtu.be/abc" VG.Inputs.allFailEnv).1 rfl⟩,
   ⟨_, rfl,
    (c3_backend_chain "https://youtu.be/abc" VG.Inputs.cobaltOkEnv).2.2 _ rfl
      (by decide) (by decide)⟩⟩
